import Mathlib

/-!
Verification of the AT-modem SMS sender (`sms.py`).

The development shallowly embeds the core of the program:

* the device-configuration pair `AtModem.configure` / `AtModem.deconfigure`
  (source names `__configure` / `__deconfigure`), acting on a model of the
  read descriptor's state (`FdState`: status flags plus termios attributes);
* the tick-level read loop `AtModem.listen`, driven by a stream of read
  events (`ReadEvent`): each `readline()` outcome is either a decoded line,
  or a raised I/O error; an exhausted stream stands for a silent device
  whose reads keep returning the empty byte string;
* the round-trip level: `AtModem.make_command` arms a listen, settles,
  sends, and awaits the response.  At this level the device is abstracted
  to a script `List (Option String)`: the per-round-trip listen outcome
  (`none` = deadline elapsed with no usable line).  An exhausted script
  also yields `none`;
* the handshake steps `works`, `switch_to_gsm`, `switch_to_text_mode`,
  `select_receiver`, `send_message`, and the step pipeline `run` mirroring
  the `assure` chain of `main`.

Python runtime errors that the embedded code can raise (`lines[-1]` on an
empty list, `re.match(None)`) are made explicit as `PyErr` values in an
`Except` result.
-/

/-- Python `str.splitlines(keepends=False)` restricted to the line
boundaries `\n`, `\r` and `\r\n` (the only ones arising here): a trailing
terminator does not produce a final empty line, and the empty string
splits into the empty list.  `acc` holds the current line, reversed. -/
def splitlinesAux : List Char → List Char → List String
  | [], acc => if acc.isEmpty then [] else [String.mk acc.reverse]
  | '\r' :: '\n' :: rest, acc => String.mk acc.reverse :: splitlinesAux rest []
  | '\n' :: rest, acc => String.mk acc.reverse :: splitlinesAux rest []
  | '\r' :: rest, acc => String.mk acc.reverse :: splitlinesAux rest []
  | c :: rest, acc => splitlinesAux rest (c :: acc)

/-- Python `content.splitlines(keepends=False)`. -/
def splitlines (s : String) : List String :=
  splitlinesAux s.toList []

/-- Match a literal at the head of the input, returning the rest. -/
def dropLiteral : List Char → List Char → Option (List Char)
  | [], s => some s
  | _ :: _, [] => none
  | c :: cs, x :: xs => if x = c then dropLiteral cs xs else none

/-- Python `SMS_SEND_RESPONSE_RE.match(s) is not None` for the pattern
`[+]CMGS:\s*\d*`, anchored at the start of `s` (the semantics of
`re.match`).  After the literal `+CMGS:`, both `\s*` and `\d*` are
nullable, so a match exists exactly when the literal is consumed. -/
def SMS_SEND_RESPONSE_RE_match (s : String) : Bool :=
  match dropLiteral "+CMGS:".toList s.toList with
  | none => false
  | some rest =>
      let rest1 := rest.dropWhile (fun c => c.isWhitespace)
      let _rest2 := rest1.dropWhile (fun c => c.isDigit)
      true

/-- Linux `os.O_NONBLOCK`. -/
def O_NONBLOCK : Nat := 2048

/-- Linux `termios.ICANON`. -/
def ICANON : Nat := 2

/-- Linux `termios.ECHO`. -/
def ECHO : Nat := 8

/-- Linux `tty.VMIN` (index into the control-character array). -/
def VMIN : Nat := 6

/-- Linux `tty.VTIME` (index into the control-character array). -/
def VTIME : Nat := 5

/-- Termios attribute record, the shape of `termios.tcgetattr`: the four
mode words, the two speeds, and the control-character array. -/
structure Termios where
  iflag : Nat
  oflag : Nat
  cflag : Nat
  lflag : Nat
  ispeed : Nat
  ospeed : Nat
  cc : List Nat
deriving DecidableEq

/-- State of the read descriptor: `fcntl` status flags (a 32-bit word)
and terminal attributes. -/
structure FdState where
  flags : Nat
  ios : Termios
deriving DecidableEq

/-- One `output.readline()` outcome inside `listen`: a decoded line
(possibly empty — a silent poll), or a raised I/O error. -/
inductive ReadEvent where
  | line (s : String)
  | fail
deriving DecidableEq

/-- Error raised while reading the device (models an exception escaping
`output.readline()` or `line.decode()`). -/
inductive ReadError where
  | ioError
deriving DecidableEq

/-- Configuration events emitted by `listen`, recording each call of
`__configure` and `__deconfigure`. -/
inductive CfgEvent where
  | configured
  | restored
deriving DecidableEq

/-- Everything a `listen` call produces: its result (or the error it
re-raises), the descriptor state at exit, the transcript, the number of
non-productive ticks it consumed, the unread rest of the device stream,
and the configure/restore events in order. -/
structure ListenResult where
  result : Except ReadError (Option String)
  fd : FdState
  log : List String
  ticks : Nat
  rest : List ReadEvent
  cfg : List CfgEvent

namespace AtModem

/-- Source constant `AtModem.TIMEOUT_DS = 5` (deciseconds). -/
def TIMEOUT_DS : Nat := 5

/-- Source `__configure(fd)`: clear `O_NONBLOCK` in the status flags,
clear `ICANON` and `ECHO` in the local-mode word, set `VMIN := 0` and
`VTIME := TIMEOUT_DS`; return the prior flags and attributes. -/
def configure (fd : FdState) : Nat × Termios × FdState :=
  let old_flags := fd.flags
  let flags1 := old_flags &&& (2 ^ 32 - 1 - O_NONBLOCK)
  let old_ios := fd.ios
  let new_ios : Termios :=
    { old_ios with
      lflag := old_ios.lflag &&& (2 ^ 32 - 1 - ICANON) &&& (2 ^ 32 - 1 - ECHO)
      cc := (old_ios.cc.set VMIN 0).set VTIME TIMEOUT_DS }
  (old_flags, old_ios, { flags := flags1, ios := new_ios })

/-- Source `__deconfigure(fd, old_flags, old_ios)`: reapply the saved
status flags (`F_SETFL`) and terminal attributes (`tcsetattr`). -/
def deconfigure (fd : FdState) (old_flags : Nat) (old_ios : Termios) : FdState :=
  { fd with flags := old_flags, ios := old_ios }

/-- The `while remaining > 0 and not result` loop of `listen`.  `log` is
the transcript so far; the value returned is (result-or-error, transcript,
non-productive ticks consumed, unread rest of the stream).  An exhausted
stream behaves as `readline()` returning the empty byte string: a
non-productive tick.  A `.fail` event is an exception escaping the loop
body. -/
def listenLoop (log : List String) : List ReadEvent → Nat →
    Except ReadError (Option String) × List String × Nat × List ReadEvent
  | stream, 0 => (.ok none, log, 0, stream)
  | [], n + 1 =>
      let (r, lg, t, rest) := listenLoop log [] n
      (r, lg, t + 1, rest)
  | .fail :: rest, _ + 1 => (.error .ioError, log, 0, rest)
  | .line s :: rest, n + 1 =>
      if s.length ≠ 0 ∧ 0 < s.trim.length then
        (.ok (some s.trim), log ++ ["< " ++ s.trim], 0, rest)
      else
        let (r, lg, t, rest1) := listenLoop log rest n
        (r, lg, t + 1, rest1)

/-- Source `listen(seconds)`: budget `remaining = seconds * 10 / TIMEOUT_DS`
(exact for integer `seconds`, since `TIMEOUT_DS = 5` divides `10`),
configure the descriptor, run the read loop under `try`, and
unconditionally deconfigure in the `finally` block — also when the loop
exits with an error. -/
def listen (seconds : Nat) (stream : List ReadEvent) (fd : FdState)
    (log : List String) : ListenResult :=
  let remaining := seconds * 10 / TIMEOUT_DS
  let (old_flags, old_ios, fd1) := configure fd
  let (r, lg, t, rest) := listenLoop log stream remaining
  let fd2 := deconfigure fd1 old_flags old_ios
  { result := r, fd := fd2, log := lg, ticks := t, rest := rest
    cfg := [.configured, .restored] }

end AtModem

/-- Python runtime errors the embedded handshake code can raise. -/
inductive PyErr where
  | indexError
  | typeError
deriving DecidableEq

/-- Round-trip level modem state: the transcript `log` and the device
script `dev` — the per-round-trip listen outcome for each successive
`make_command` (`none` = the listen deadline elapsed with no usable
line).  An exhausted script also yields `none`. -/
structure ModemSt where
  log : List String
  dev : List (Option String)
deriving DecidableEq

/-- The listen outcome the armed listen task of the next round-trip will
deliver, and the rest of the script. -/
def nextResponse : List (Option String) → Option String × List (Option String)
  | [] => (none, [])
  | r :: rest => (r, rest)

/-- The events of one `make_command` round-trip, in the statement order of
the source: submit `listen` to the executor, `sleep(1)`, `send`, await
`future_response.result()`. -/
inductive MmEvent where
  | armListen (timeout : Nat)
  | settle
  | write (what : String)
  | awaitResult
deriving DecidableEq

/-- Source `make_command(what, timeout)` as an event trace. -/
def make_command_events (what : String) (timeout : Nat) : List MmEvent :=
  [.armListen timeout, .settle, .write what, .awaitResult]

namespace AtModem

/-- Source `send(what)`: append the outgoing transcript entry and write
`what + CRLF` to the device (the write itself has no further effect on
the model state). -/
def send (st : ModemSt) (what : String) : ModemSt :=
  { st with log := st.log ++ ["> " ++ what] }

/-- Source `make_command(what, timeout)`: arm the listen task (fixing
which response of the script this round-trip will receive), settle, send
`what`, then await the listen result; a productive listen appends its
incoming transcript entry.  The response of a round-trip is causally
produced by its command, so its incoming entry is recorded after the
outgoing one. -/
def make_command (st : ModemSt) (what : String) (timeout : Nat) :
    Option String × ModemSt :=
  let (resp, dev1) := nextResponse st.dev
  let st1 := send { st with dev := dev1 } what
  match resp with
  | some r => (some r, { st1 with log := st1.log ++ ["< " ++ r] })
  | none => (none, st1)

/-- Source `__at()`: `make_command('AT') == "OK"`. -/
def at_cmd (st : ModemSt) : Bool × ModemSt :=
  let (r, st1) := make_command st "AT" 5
  (r == some "OK", st1)

/-- Source `abort()`: `make_command('\033') in ("OK", "+CMS ERROR: 305")`. -/
def abort (st : ModemSt) : Bool × ModemSt :=
  let (r, st1) := make_command st "\x1B" 5
  (r == some "OK" || r == some "+CMS ERROR: 305", st1)

/-- Source `works()`: first `AT`; on success report Ok.  Otherwise
`abort()` and, only if it succeeded (short-circuit `and`), a retried
`AT`; report Fixed (true) on success, Failed (false) otherwise. -/
def works (st : ModemSt) : Bool × ModemSt :=
  let (ok1, st1) := at_cmd st
  if ok1 then (true, st1)
  else
    let (ab, st2) := abort st1
    if ab then at_cmd st2
    else (false, st2)

/-- Source `switch_to_gsm()`: `make_command('AT+CSCS="GSM"') == "OK"`. -/
def switch_to_gsm (st : ModemSt) : Bool × ModemSt :=
  let (r, st1) := make_command st "AT+CSCS=\"GSM\"" 5
  (r == some "OK", st1)

/-- Source `switch_to_text_mode()`: `make_command('AT+CMGF=1') == "OK"`. -/
def switch_to_text_mode (st : ModemSt) : Bool × ModemSt :=
  let (r, st1) := make_command st "AT+CMGF=1" 5
  (r == some "OK", st1)

/-- Source `select_receiver(number)`:
`make_command('AT+CMGS="{number}"') == ">"`. -/
def select_receiver (st : ModemSt) (number : String) : Bool × ModemSt :=
  let (r, st1) := make_command st ("AT+CMGS=\"" ++ number ++ "\"") 5
  (r == some ">", st1)

/-- The `for line in lines[:-1]` loop of `send_message`: each line is
sent expecting the `">"` continuation prompt; the first other response
returns Failed (false). -/
def send_lines : ModemSt → List String → Bool × ModemSt
  | st, [] => (true, st)
  | st, l :: rest =>
      let (r, st1) := make_command st l 5
      if r == some ">" then send_lines st1 rest
      else (false, st1)

/-- Source `send_message(content)`: split the content into lines, send
all but the last expecting `">"`, then send the last line with a trailing
Ctrl-Z (0x1A) and match the response against `SMS_SEND_RESPONSE_RE`.
`lines[-1]` on an empty list raises `IndexError`; `re.match(None)` —
the response being the absence value — raises `TypeError`. -/
def send_message (st : ModemSt) (content : String) :
    Except PyErr Bool × ModemSt :=
  let lines := splitlines content
  let (ok, st1) := send_lines st lines.dropLast
  if ok then
    match lines.getLast? with
    | none => (.error .indexError, st1)
    | some last =>
        let (r, st2) := make_command st1 (last ++ "\x1A") 5
        match r with
        | none => (.error .typeError, st2)
        | some resp => (.ok (SMS_SEND_RESPONSE_RE_match resp), st2)
  else (.ok false, st1)

end AtModem

/-- Outcome of a run: full success, or the `TerminateApplication`
message raised by the failing `assure`. -/
inductive RunOutcome where
  | success
  | fatal (msg : String)
deriving DecidableEq

/-- The modem part of `main`: the `assure` chain over the five handshake
steps.  Each failing step raises `TerminateApplication` with its message
(modelled as `.fatal msg`) and stops the sequence; a Python error raised
inside a step propagates (`.error`). -/
def run (st : ModemSt) (number content : String) :
    Except PyErr RunOutcome × ModemSt :=
  let (ok1, st1) := AtModem.works st
  if ok1 then
    let (ok2, st2) := AtModem.switch_to_gsm st1
    if ok2 then
      let (ok3, st3) := AtModem.switch_to_text_mode st2
      if ok3 then
        let (ok4, st4) := AtModem.select_receiver st3 number
        if ok4 then
          match AtModem.send_message st4 content with
          | (.error e, st5) => (.error e, st5)
          | (.ok ok5, st5) =>
              if ok5 then (.ok .success, st5)
              else (.ok (.fatal "Could not sent message"), st5)
        else (.ok (.fatal "Could not set message receiver number"), st4)
      else (.ok (.fatal "Could not switch modem to Text mode"), st3)
    else (.ok (.fatal "Could not switch modem to GSM mode"), st2)
  else (.ok (.fatal "Your modem does not seem to be working"), st1)

/-- An outgoing transcript entry: logged by `send` with the marker `> `. -/
def isOutgoingEntry (e : String) : Bool :=
  match e.data with
  | '>' :: ' ' :: _ => true
  | _ => false

/-- An incoming transcript entry: logged by `listen` with the marker `< `. -/
def isIncomingEntry (e : String) : Bool :=
  match e.data with
  | '<' :: ' ' :: _ => true
  | _ => false

/-- Strict outgoing-then-incoming alternation of a transcript. -/
def alternatingOI : List String → Bool
  | [] => true
  | o :: i :: rest => isOutgoingEntry o && isIncomingEntry i && alternatingOI rest
  | _ :: [] => false

/-! ### Helper lemmas -/

/-- The read loop on a silent device: never productive, never failing,
one tick per unit of budget. -/
lemma listenLoop_silent (log : List String) :
    ∀ n : Nat, AtModem.listenLoop log [] n = (.ok none, log, n, []) := by
  intro n
  induction n with
  | zero => rfl
  | succ n ih => simp [AtModem.listenLoop, ih]

/-- The read loop with an exhausted budget does nothing. -/
lemma listenLoop_zero (log : List String) (stream : List ReadEvent) :
    AtModem.listenLoop log stream 0 = (.ok none, log, 0, stream) := by
  cases stream with
  | nil => rfl
  | cons e rest => cases e <;> rfl

/-- Unfolded form of `listen`: the descriptor is restored to its initial
state, the configuration trace is configure-then-restore, and result,
transcript, ticks and unread rest come from the read loop. -/
lemma listen_unfold (seconds : Nat) (stream : List ReadEvent) (fd : FdState)
    (log : List String) :
    AtModem.listen seconds stream fd log =
      { result := (AtModem.listenLoop log stream
          (seconds * 10 / AtModem.TIMEOUT_DS)).1
        fd := fd
        log := (AtModem.listenLoop log stream
          (seconds * 10 / AtModem.TIMEOUT_DS)).2.1
        ticks := (AtModem.listenLoop log stream
          (seconds * 10 / AtModem.TIMEOUT_DS)).2.2.1
        rest := (AtModem.listenLoop log stream
          (seconds * 10 / AtModem.TIMEOUT_DS)).2.2.2
        cfg := [.configured, .restored] } := by
  unfold AtModem.listen
  rcases hl : AtModem.listenLoop log stream (seconds * 10 / AtModem.TIMEOUT_DS)
    with ⟨r, lg, t, rest⟩
  simp [AtModem.configure, AtModem.deconfigure, hl]

/-! ### Claim theorems (listen level) -/

/-- C2: on every control-flow exit of `listen` (productive return, tick
exhaustion, or an error raised while reading) the descriptor leaves with
exactly the flags and terminal attributes it entered with, the
configure/restore trace is exactly one configure followed by one restore,
and `configure` followed by `deconfigure` is the identity on the
descriptor state. -/
theorem listen_restores_configuration :
    (∀ (seconds : Nat) (stream : List ReadEvent) (fd : FdState)
        (log : List String),
      (AtModem.listen seconds stream fd log).fd = fd ∧
      (AtModem.listen seconds stream fd log).cfg =
        [CfgEvent.configured, CfgEvent.restored]) ∧
    (∀ fd : FdState,
      AtModem.deconfigure (AtModem.configure fd).2.2 (AtModem.configure fd).1
        (AtModem.configure fd).2.1 = fd) := by
  constructor
  · intro seconds stream fd log
    rw [listen_unfold]
    exact ⟨rfl, rfl⟩
  · intro fd
    rfl

/-- C5: a `listen` with timeout `T` against a device that never produces
a usable line returns the absence value after consuming exactly
`⌈T * 10 / TIMEOUT_DS⌉` non-productive ticks (with `TIMEOUT_DS = 5`), the
budget being initialised to `T * 10 / TIMEOUT_DS` and decremented once
per non-productive read. -/
theorem listen_timeout_ticks :
    AtModem.TIMEOUT_DS = 5 ∧
    ∀ (T : Nat) (fd : FdState) (log : List String),
      (AtModem.listen T [] fd log).result = .ok none ∧
      (AtModem.listen T [] fd log).ticks = T * 10 / AtModem.TIMEOUT_DS ∧
      (AtModem.listen T [] fd log).ticks =
        ⌈(T * 10 : ℚ) / (AtModem.TIMEOUT_DS : ℚ)⌉₊ ∧
      (AtModem.listen T [] fd log).log = log := by
  refine ⟨rfl, ?_⟩
  intro T fd log
  rw [listen_unfold, listenLoop_silent]
  refine ⟨rfl, rfl, ?_, rfl⟩
  show T * 10 / AtModem.TIMEOUT_DS = ⌈(T * 10 : ℚ) / (AtModem.TIMEOUT_DS : ℚ)⌉₊
  have h5 : AtModem.TIMEOUT_DS = 5 := rfl
  rw [h5]
  have hc : ((5 : ℕ) : ℚ) = (5 : ℚ) := by norm_num
  rw [hc]
  have hq : ((T : ℚ) * 10) / (5 : ℚ) = ((2 * T : ℕ) : ℚ) := by
    push_cast
    ring
  rw [hq, Nat.ceil_natCast]
  omega

/-- C10: `listen` with timeout `0` starts with an exhausted budget: the
loop body never runs, nothing is read from the stream, the transcript is
untouched, and the absence value is returned — while the descriptor is
still configured and then restored around the empty loop. -/
theorem listen_zero_timeout :
    ∀ (stream : List ReadEvent) (fd : FdState) (log : List String),
      AtModem.listen 0 stream fd log =
        { result := .ok none, fd := fd, log := log, ticks := 0, rest := stream,
          cfg := [.configured, .restored] } := by
  intro stream fd log
  rw [listen_unfold]
  have h0 : (0 : Nat) * 10 / AtModem.TIMEOUT_DS = 0 := rfl
  rw [h0, listenLoop_zero]

/-- One round-trip against the head of the device script: the outgoing
entry is appended first, then — when the response is present — its
incoming entry. -/
lemma make_command_cons (log : List String) (r : Option String)
    (d : List (Option String)) (w : String) (t : Nat) :
    AtModem.make_command ⟨log, r :: d⟩ w t =
      (r, ⟨log ++ ["> " ++ w] ++
        (match r with | some s => ["< " ++ s] | none => []), d⟩) := by
  cases r <;> simp [AtModem.make_command, nextResponse, AtModem.send]

/-- A round-trip against an exhausted device script yields absence. -/
lemma make_command_nil (log : List String) (w : String) (t : Nat) :
    AtModem.make_command ⟨log, []⟩ w t = (none, ⟨log ++ ["> " ++ w], []⟩) := by
  simp [AtModem.make_command, nextResponse, AtModem.send]

/-! ### Claim theorems (round-trip level) -/

/-- C4: within one `make_command` round-trip the listen task is armed
strictly before the command is written (the arm event precedes the write
event in the round-trip's trace), and consequently the transcript gains
the round-trip's outgoing entry before its incoming entry, if any. -/
theorem arm_before_send :
    ∀ (what : String) (timeout : Nat) (st : ModemSt),
      (∃ i j, i < j ∧
        (make_command_events what timeout).get? i =
          some (MmEvent.armListen timeout) ∧
        (make_command_events what timeout).get? j =
          some (MmEvent.write what)) ∧
      (∃ inc,
        (AtModem.make_command st what timeout).2.log =
          st.log ++ ["> " ++ what] ++ inc ∧
        (inc = [] ∨ ∃ r, inc = ["< " ++ r] ∧
          (AtModem.make_command st what timeout).1 = some r)) := by
  intro what timeout st
  refine ⟨⟨0, 2, by omega, rfl, rfl⟩, ?_⟩
  rcases st with ⟨log, dev⟩
  cases dev with
  | nil =>
      refine ⟨[], ?_, Or.inl rfl⟩
      simp [make_command_nil]
  | cons r rest =>
      cases r with
      | none =>
          refine ⟨[], ?_, Or.inl rfl⟩
          simp [make_command_cons]
      | some s =>
          refine ⟨["< " ++ s], ?_, Or.inr ⟨s, rfl, ?_⟩⟩ <;>
            simp [make_command_cons]

/-- C3: the liveness step.  A first `AT` answered `"OK"` succeeds with no
recovery ESC ever sent (the transcript gains only the `AT` round-trip);
a failed first `AT` followed by a successful ESC recovery (`"OK"` or
`"+CMS ERROR: 305"`) and a successful retried `AT` reports fixed-success;
a failed recovery predicate skips the retry and fails; a failed retry
fails; and a failed `works` stops the run with the Liveness step named —
no further handshake command runs. -/
theorem works_liveness :
    (∀ (l : List String) (d : List (Option String)),
      AtModem.works ⟨l, some "OK" :: d⟩ = (true, ⟨l ++ ["> AT", "< OK"], d⟩)) ∧
    (∀ (l : List String) (d : List (Option String)) (r0 re : Option String),
      r0 ≠ some "OK" → (re = some "OK" ∨ re = some "+CMS ERROR: 305") →
      (AtModem.works ⟨l, r0 :: re :: some "OK" :: d⟩).1 = true) ∧
    (∀ (l : List String) (d : List (Option String)) (r0 re : Option String),
      r0 ≠ some "OK" → re ≠ some "OK" → re ≠ some "+CMS ERROR: 305" →
      (AtModem.works ⟨l, r0 :: re :: d⟩).1 = false ∧
      (AtModem.works ⟨l, r0 :: re :: d⟩).2.dev = d) ∧
    (∀ (l : List String) (d : List (Option String)) (r0 re r2 : Option String),
      r0 ≠ some "OK" → (re = some "OK" ∨ re = some "+CMS ERROR: 305") →
      r2 ≠ some "OK" →
      (AtModem.works ⟨l, r0 :: re :: r2 :: d⟩).1 = false) ∧
    (∀ (st st1 : ModemSt) (number content : String),
      AtModem.works st = (false, st1) →
      run st number content =
        (.ok (.fatal "Your modem does not seem to be working"), st1)) := by
  refine ⟨?_, ?_, ?_, ?_, ?_⟩
  · intro l d
    simp [AtModem.works, AtModem.at_cmd, make_command_cons]
  · intro l d r0 re h0 h1
    rcases h1 with h1 | h1 <;> subst h1 <;>
      simp [AtModem.works, AtModem.at_cmd, AtModem.abort, make_command_cons, h0]
  · intro l d r0 re h0 h1 h2
    constructor <;>
      simp [AtModem.works, AtModem.at_cmd, AtModem.abort, make_command_cons,
        h0, h1, h2]
  · intro l d r0 re r2 h0 h1 h2
    rcases h1 with h1 | h1 <;> subst h1 <;>
      simp [AtModem.works, AtModem.at_cmd, AtModem.abort, make_command_cons,
        h0, h2]
  · intro st st1 number content h
    simp [run, h]

/-- Witness for `works_liveness`: concrete applications discharging its
hypotheses. -/
theorem works_liveness_witness :
    (AtModem.works ⟨[], [none, some "+CMS ERROR: 305", some "OK"]⟩).1 = true ∧
    (AtModem.works ⟨[], [none, none]⟩).1 = false ∧
    run ⟨[], [none, none]⟩ "+48123456789" "Hi" =
      (.ok (.fatal "Your modem does not seem to be working"),
        ⟨["> AT", "> \x1B"], []⟩) :=
  ⟨works_liveness.2.1 [] [] none (some "+CMS ERROR: 305") (by decide)
      (Or.inr rfl),
    (works_liveness.2.2.1 [] [] none none (by decide) (by decide)
      (by decide)).1,
    works_liveness.2.2.2.2 ⟨[], [none, none]⟩ ⟨["> AT", "> \x1B"], []⟩
      "+48123456789" "Hi" rfl⟩

/-- C6: for the multi-line content `"Hello\nWorld"` with the receiver
already selected, `send_message` sends `"Hello"` and continues only when
the response is `">"`; it then sends `"World"` with a trailing Ctrl-Z and
succeeds exactly when the response matches the anchored `+CMGS` pattern:
`"+CMGS: 12"` matches and yields true, `"ERROR"` does not and yields
false. -/
theorem send_message_hello_world :
    (∀ (d : List (Option String)) (r : Option String), r ≠ some ">" →
      (AtModem.send_message ⟨[], r :: d⟩ "Hello\nWorld").1 = .ok false ∧
      (AtModem.send_message ⟨[], r :: d⟩ "Hello\nWorld").2.dev = d) ∧
    (∀ resp : String,
      (AtModem.send_message ⟨[], [some ">", some resp]⟩ "Hello\nWorld").1 =
        .ok (SMS_SEND_RESPONSE_RE_match resp)) ∧
    SMS_SEND_RESPONSE_RE_match "+CMGS: 12" = true ∧
    SMS_SEND_RESPONSE_RE_match "ERROR" = false ∧
    AtModem.send_message ⟨[], [some ">", some "+CMGS: 12"]⟩ "Hello\nWorld" =
      (.ok true, ⟨["> Hello", "< >", "> World\x1A", "< +CMGS: 12"], []⟩) ∧
    AtModem.send_message ⟨[], [some ">", some "ERROR"]⟩ "Hello\nWorld" =
      (.ok false, ⟨["> Hello", "< >", "> World\x1A", "< ERROR"], []⟩) := by
  have hs : splitlines "Hello\nWorld" = ["Hello", "World"] := by decide
  refine ⟨?_, ?_, by decide, by decide, rfl, rfl⟩
  · intro d r hr
    constructor <;>
      simp [AtModem.send_message, hs, AtModem.send_lines, make_command_cons, hr]
  · intro resp
    simp [AtModem.send_message, hs, AtModem.send_lines, make_command_cons]

/-- Witness for `send_message_hello_world`: a non-prompt response to the
first line stops the step with failure. -/
theorem send_message_hello_world_witness :
    (AtModem.send_message ⟨[], [some "ERROR"]⟩ "Hello\nWorld").1 = .ok false ∧
    (AtModem.send_message ⟨[], [some "ERROR"]⟩ "Hello\nWorld").2.dev = [] :=
  send_message_hello_world.1 [] (some "ERROR") (by decide)

/-- C7: the end-to-end happy path.  With the device answering the five
commands `OK`, `OK`, `OK`, `>`, `+CMGS: 1` for message `"Hi"` to
`+48123456789`, the run reports full success and leaves a transcript of
exactly 10 entries — 5 outgoing and 5 incoming — strictly alternating
outgoing-then-incoming. -/
theorem happy_path_transcript :
    ∃ finalLog : List String,
      run ⟨[], [some "OK", some "OK", some "OK", some ">", some "+CMGS: 1"]⟩
          "+48123456789" "Hi" =
        (.ok .success, ⟨finalLog, []⟩) ∧
      finalLog.length = 10 ∧
      finalLog.countP (fun e => isOutgoingEntry e) = 5 ∧
      finalLog.countP (fun e => isIncomingEntry e) = 5 ∧
      alternatingOI finalLog = true := by
  refine ⟨["> AT", "< OK", "> AT+CSCS=\"GSM\"", "< OK", "> AT+CMGF=1", "< OK",
    "> AT+CMGS=\"+48123456789\"", "< >", "> Hi\x1A", "< +CMGS: 1"],
    rfl, ?_, ?_, ?_, ?_⟩ <;> decide

/-- C1: a listen deadline that elapses with no usable line surfaces as the
absence value, and `switch_to_gsm`, `switch_to_text_mode`,
`select_receiver`, `works`, and the non-final content lines of
`send_message` all turn it into step failure (false) — but the
content-termination sub-step does not: matching the absent response
against the `+CMGS` pattern is `re.match(None)`, which raises `TypeError`
instead of returning a boolean. -/
theorem absence_is_step_failure :
    (∀ (l : List String) (d : List (Option String)) (number : String),
      (AtModem.switch_to_gsm ⟨l, none :: d⟩).1 = false ∧
      (AtModem.switch_to_text_mode ⟨l, none :: d⟩).1 = false ∧
      (AtModem.select_receiver ⟨l, none :: d⟩ number).1 = false ∧
      (AtModem.works ⟨l, none :: none :: d⟩).1 = false ∧
      (AtModem.send_message ⟨l, none :: d⟩ "Hello\nWorld").1 = .ok false) ∧
    AtModem.send_message ⟨[], [none]⟩ "Hi" =
      (.error .typeError, ⟨["> Hi\x1A"], []⟩) := by
  have hs : splitlines "Hello\nWorld" = ["Hello", "World"] := by decide
  refine ⟨?_, rfl⟩
  intro l d number
  refine ⟨?_, ?_, ?_, ?_, ?_⟩
  · simp [AtModem.switch_to_gsm, make_command_cons]
  · simp [AtModem.switch_to_text_mode, make_command_cons]
  · simp [AtModem.select_receiver, make_command_cons]
  · simp [AtModem.works, AtModem.at_cmd, AtModem.abort, make_command_cons]
  · simp [AtModem.send_message, hs, AtModem.send_lines, make_command_cons]

/-- C9 counterexample: content `"Hi"` has one line, yet `send_message`
does not return a boolean when the final content command yields absence —
it raises `TypeError` (`re.match(None)`). -/
theorem send_message_nonempty_raises_counterexample :
    AtModem.send_message ⟨[], []⟩ "Hi" =
      (.error .typeError, ⟨["> Hi\x1A"], []⟩) := rfl

/-- C9 (amended): `send_message` raises `IndexError` exactly when the
content splits into no lines (the `lines[-1]` access); with at least one
line it returns a boolean or — when the final content command's outcome
is absence — raises `TypeError`. -/
theorem send_message_totality :
    ∀ (st : ModemSt) (content : String),
      ((AtModem.send_message st content).1 = .error .indexError ↔
        splitlines content = []) ∧
      (splitlines content = [] →
        AtModem.send_message st content = (.error .indexError, st)) ∧
      (splitlines content ≠ [] →
        (∃ b st1, AtModem.send_message st content = (.ok b, st1)) ∨
        (∃ st1, AtModem.send_message st content = (.error .typeError, st1))) := by
  intro st content
  rcases h : splitlines content with _ | ⟨a, as⟩
  · refine ⟨?_, ?_, fun hc => absurd rfl hc⟩
    · simp [AtModem.send_message, h, AtModem.send_lines]
    · intro _
      simp [AtModem.send_message, h, AtModem.send_lines]
  · have hlast : (a :: as).getLast? ≠ none := by
      simp [List.getLast?_eq_none_iff]
    rcases hsl : AtModem.send_lines st (a :: as).dropLast with ⟨ok, st1⟩
    rcases hgl : (a :: as).getLast? with _ | last
    · exact absurd hgl hlast
    · cases ok with
      | false =>
          refine ⟨?_, fun hc => by simp [h] at hc, fun _ => ?_⟩
          · simp [AtModem.send_message, h, hsl]
          · exact Or.inl ⟨false, st1, by simp [AtModem.send_message, h, hsl]⟩
      | true =>
          rcases hmc : AtModem.make_command st1 (last ++ "\x1A") 5 with ⟨r, st2⟩
          rcases r with _ | resp
          · refine ⟨?_, fun hc => by simp [h] at hc, fun _ => ?_⟩
            · simp [AtModem.send_message, h, hsl, hgl, hmc]
            · exact Or.inr ⟨st2, by simp [AtModem.send_message, h, hsl, hgl, hmc]⟩
          · refine ⟨?_, fun hc => by simp [h] at hc, fun _ => ?_⟩
            · simp [AtModem.send_message, h, hsl, hgl, hmc]
            · exact Or.inl ⟨SMS_SEND_RESPONSE_RE_match resp, st2,
                by simp [AtModem.send_message, h, hsl, hgl, hmc]⟩

/-- Witness for `send_message_totality`: the empty content raises
`IndexError` with the state untouched, and one-line content against a
responsive device stays in the boolean-or-TypeError range. -/
theorem send_message_totality_witness :
    AtModem.send_message ⟨[], [some "OK"]⟩ "" =
      (.error .indexError, ⟨[], [some "OK"]⟩) ∧
    ((∃ b st1, AtModem.send_message ⟨[], [some "OK"]⟩ "Hi" = (.ok b, st1)) ∨
      (∃ st1, AtModem.send_message ⟨[], [some "OK"]⟩ "Hi" =
        (.error .typeError, st1))) :=
  ⟨(send_message_totality ⟨[], [some "OK"]⟩ "").2.1 (by decide),
    (send_message_totality ⟨[], [some "OK"]⟩ "Hi").2.2 (by decide)⟩

/-- The read loop only ever appends to the transcript: it leaves it
unchanged or adds a single incoming entry. -/
lemma listenLoop_log_ext (log : List String) :
    ∀ (n : Nat) (stream : List ReadEvent),
      (AtModem.listenLoop log stream n).2.1 = log ∨
      ∃ r, (AtModem.listenLoop log stream n).2.1 = log ++ ["< " ++ r] := by
  intro n
  induction n with
  | zero =>
      intro stream
      rw [listenLoop_zero]
      exact Or.inl rfl
  | succ n ih =>
      intro stream
      match stream with
      | [] =>
          rcases hr : AtModem.listenLoop log [] n with ⟨r, lg, t, rest⟩
          have h2 := ih []
          rw [hr] at h2
          simpa [AtModem.listenLoop, hr] using h2
      | .fail :: rest => exact Or.inl rfl
      | .line s :: rest =>
          by_cases hc : s.length ≠ 0 ∧ 0 < s.trim.length
          · exact Or.inr ⟨s.trim, by simp [AtModem.listenLoop, hc]⟩
          · rcases hr : AtModem.listenLoop log rest n with ⟨r, lg, t, rest1⟩
            have h2 := ih rest
            rw [hr] at h2
            simpa [AtModem.listenLoop, hc, hr] using h2

/-- One round-trip only appends to the transcript. -/
lemma make_command_log_ext (st : ModemSt) (w : String) (t : Nat) :
    ∃ tail, (AtModem.make_command st w t).2.log = st.log ++ tail := by
  rcases st with ⟨log, dev⟩
  cases dev with
  | nil => exact ⟨["> " ++ w], by simp [make_command_nil]⟩
  | cons r rest =>
      cases r with
      | none => exact ⟨["> " ++ w], by simp [make_command_cons]⟩
      | some s => exact ⟨["> " ++ w, "< " ++ s], by simp [make_command_cons]⟩

/-- The `AT` liveness probe only appends to the transcript. -/
lemma at_cmd_log_ext (st : ModemSt) :
    ∃ tail, (AtModem.at_cmd st).2.log = st.log ++ tail := by
  rcases hmc : AtModem.make_command st "AT" 5 with ⟨r, st1⟩
  obtain ⟨tail, ht⟩ := make_command_log_ext st "AT" 5
  rw [hmc] at ht
  exact ⟨tail, by simp [AtModem.at_cmd, hmc]; exact ht⟩

/-- The recovery ESC only appends to the transcript. -/
lemma abort_log_ext (st : ModemSt) :
    ∃ tail, (AtModem.abort st).2.log = st.log ++ tail := by
  rcases hmc : AtModem.make_command st "\x1B" 5 with ⟨r, st1⟩
  obtain ⟨tail, ht⟩ := make_command_log_ext st "\x1B" 5
  rw [hmc] at ht
  exact ⟨tail, by simp [AtModem.abort, hmc]; exact ht⟩

/-- The liveness step only appends to the transcript. -/
lemma works_log_ext (st : ModemSt) :
    ∃ tail, (AtModem.works st).2.log = st.log ++ tail := by
  rcases h1 : AtModem.at_cmd st with ⟨ok1, st1⟩
  obtain ⟨t1, ht1⟩ := at_cmd_log_ext st
  rw [h1] at ht1
  replace ht1 : st1.log = st.log ++ t1 := ht1
  rcases h2 : AtModem.abort st1 with ⟨ab, st2⟩
  obtain ⟨t2, ht2⟩ := abort_log_ext st1
  rw [h2] at ht2
  replace ht2 : st2.log = st1.log ++ t2 := ht2
  rcases h3 : AtModem.at_cmd st2 with ⟨ok3, st3⟩
  obtain ⟨t3, ht3⟩ := at_cmd_log_ext st2
  rw [h3] at ht3
  replace ht3 : st3.log = st2.log ++ t3 := ht3
  cases ok1 with
  | true => exact ⟨t1, by simp [AtModem.works, h1]; exact ht1⟩
  | false =>
      cases ab with
      | false =>
          refine ⟨t1 ++ t2, ?_⟩
          simp [AtModem.works, h1, h2, ht2, ht1]
      | true =>
          refine ⟨t1 ++ (t2 ++ t3), ?_⟩
          simp [AtModem.works, h1, h2, h3, ht3, ht2, ht1]

/-- The content-line loop only appends to the transcript. -/
lemma send_lines_log_ext :
    ∀ (ls : List String) (st : ModemSt),
      ∃ tail, (AtModem.send_lines st ls).2.log = st.log ++ tail := by
  intro ls
  induction ls with
  | nil => exact fun st => ⟨[], by simp [AtModem.send_lines]⟩
  | cons l rest ih =>
      intro st
      rcases hmc : AtModem.make_command st l 5 with ⟨r, st1⟩
      obtain ⟨t1, ht1⟩ := make_command_log_ext st l 5
      rw [hmc] at ht1
      replace ht1 : st1.log = st.log ++ t1 := ht1
      obtain ⟨t2, ht2⟩ := ih st1
      by_cases hr : r = some ">"
      · refine ⟨t1 ++ t2, ?_⟩
        simp [AtModem.send_lines, hmc, hr, ht2, ht1]
      · refine ⟨t1, ?_⟩
        simp [AtModem.send_lines, hmc, hr, ht1]

/-- The whole message-content step only appends to the transcript. -/
lemma send_message_log_ext (st : ModemSt) (content : String) :
    ∃ tail, (AtModem.send_message st content).2.log = st.log ++ tail := by
  rcases hsl : AtModem.send_lines st (splitlines content).dropLast
    with ⟨ok, st1⟩
  obtain ⟨t1, ht1⟩ := send_lines_log_ext (splitlines content).dropLast st
  rw [hsl] at ht1
  replace ht1 : st1.log = st.log ++ t1 := ht1
  cases ok with
  | false => exact ⟨t1, by simp [AtModem.send_message, hsl]; exact ht1⟩
  | true =>
      rcases hgl : (splitlines content).getLast? with _ | last
      · exact ⟨t1, by simp [AtModem.send_message, hsl, hgl]; exact ht1⟩
      · rcases hmc : AtModem.make_command st1 (last ++ "\x1A") 5 with ⟨r, st2⟩
        obtain ⟨t2, ht2⟩ := make_command_log_ext st1 (last ++ "\x1A") 5
        rw [hmc] at ht2
        replace ht2 : st2.log = st1.log ++ t2 := ht2
        rcases r with _ | resp
        · refine ⟨t1 ++ t2, ?_⟩
          simp [AtModem.send_message, hsl, hgl, hmc, ht2, ht1]
        · refine ⟨t1 ++ t2, ?_⟩
          simp [AtModem.send_message, hsl, hgl, hmc, ht2, ht1]

/-- The charset step only appends to the transcript. -/
lemma switch_to_gsm_log_ext (st : ModemSt) :
    ∃ tail, (AtModem.switch_to_gsm st).2.log = st.log ++ tail := by
  rcases hmc : AtModem.make_command st "AT+CSCS=\"GSM\"" 5 with ⟨r, st1⟩
  obtain ⟨tail, ht⟩ := make_command_log_ext st "AT+CSCS=\"GSM\"" 5
  rw [hmc] at ht
  exact ⟨tail, by simp [AtModem.switch_to_gsm, hmc]; exact ht⟩

/-- The text-mode step only appends to the transcript. -/
lemma switch_to_text_mode_log_ext (st : ModemSt) :
    ∃ tail, (AtModem.switch_to_text_mode st).2.log = st.log ++ tail := by
  rcases hmc : AtModem.make_command st "AT+CMGF=1" 5 with ⟨r, st1⟩
  obtain ⟨tail, ht⟩ := make_command_log_ext st "AT+CMGF=1" 5
  rw [hmc] at ht
  exact ⟨tail, by simp [AtModem.switch_to_text_mode, hmc]; exact ht⟩

/-- The receiver step only appends to the transcript. -/
lemma select_receiver_log_ext (st : ModemSt) (number : String) :
    ∃ tail, (AtModem.select_receiver st number).2.log = st.log ++ tail := by
  rcases hmc : AtModem.make_command st ("AT+CMGS=\"" ++ number ++ "\"") 5
    with ⟨r, st1⟩
  obtain ⟨tail, ht⟩ := make_command_log_ext st ("AT+CMGS=\"" ++ number ++ "\"") 5
  rw [hmc] at ht
  exact ⟨tail, by simp [AtModem.select_receiver, hmc]; exact ht⟩

/-- The whole handshake pipeline only appends to the transcript. -/
lemma run_log_ext (st : ModemSt) (number content : String) :
    ∃ tail, (run st number content).2.log = st.log ++ tail := by
  rcases h1 : AtModem.works st with ⟨ok1, st1⟩
  obtain ⟨t1, ht1⟩ := works_log_ext st
  rw [h1] at ht1
  replace ht1 : st1.log = st.log ++ t1 := ht1
  rcases h2 : AtModem.switch_to_gsm st1 with ⟨ok2, st2⟩
  obtain ⟨t2, ht2⟩ := switch_to_gsm_log_ext st1
  rw [h2] at ht2
  replace ht2 : st2.log = st1.log ++ t2 := ht2
  rcases h3 : AtModem.switch_to_text_mode st2 with ⟨ok3, st3⟩
  obtain ⟨t3, ht3⟩ := switch_to_text_mode_log_ext st2
  rw [h3] at ht3
  replace ht3 : st3.log = st2.log ++ t3 := ht3
  rcases h4 : AtModem.select_receiver st3 number with ⟨ok4, st4⟩
  obtain ⟨t4, ht4⟩ := select_receiver_log_ext st3 number
  rw [h4] at ht4
  replace ht4 : st4.log = st3.log ++ t4 := ht4
  rcases h5 : AtModem.send_message st4 content with ⟨res5, st5⟩
  obtain ⟨t5, ht5⟩ := send_message_log_ext st4 content
  rw [h5] at ht5
  replace ht5 : st5.log = st4.log ++ t5 := ht5
  cases ok1 with
  | false => exact ⟨t1, by simp [run, h1]; exact ht1⟩
  | true =>
      cases ok2 with
      | false =>
          exact ⟨t1 ++ t2, by simp [run, h1, h2, ht2, ht1]⟩
      | true =>
          cases ok3 with
          | false =>
              exact ⟨t1 ++ (t2 ++ t3), by simp [run, h1, h2, h3, ht3, ht2, ht1]⟩
          | true =>
              cases ok4 with
              | false =>
                  exact ⟨t1 ++ (t2 ++ (t3 ++ t4)),
                    by simp [run, h1, h2, h3, h4, ht4, ht3, ht2, ht1]⟩
              | true =>
                  rcases res5 with e5 | b5
                  · exact ⟨t1 ++ (t2 ++ (t3 ++ (t4 ++ t5))),
                      by simp [run, h1, h2, h3, h4, h5, ht5, ht4, ht3, ht2, ht1]⟩
                  · cases b5 <;>
                      exact ⟨t1 ++ (t2 ++ (t3 ++ (t4 ++ t5))),
                        by simp [run, h1, h2, h3, h4, h5, ht5, ht4, ht3, ht2,
                          ht1]⟩

/-- C8: the transcript is append-only.  `send` appends exactly one
outgoing entry; a `listen` leaves the transcript unchanged or appends
exactly one incoming entry; and every composite operation — a round-trip,
each handshake step, and the whole run — only extends the transcript at
its end, never removing, reordering, rewriting or clearing existing
entries. -/
theorem transcript_append_only :
    (∀ (st : ModemSt) (w : String),
      (AtModem.send st w).log = st.log ++ ["> " ++ w]) ∧
    (∀ (seconds : Nat) (stream : List ReadEvent) (fd : FdState)
        (lg : List String),
      (AtModem.listen seconds stream fd lg).log = lg ∨
      ∃ r, (AtModem.listen seconds stream fd lg).log = lg ++ ["< " ++ r]) ∧
    (∀ (st : ModemSt) (w : String) (t : Nat),
      ∃ tail, (AtModem.make_command st w t).2.log = st.log ++ tail) ∧
    (∀ st : ModemSt, ∃ tail, (AtModem.works st).2.log = st.log ++ tail) ∧
    (∀ st : ModemSt,
      ∃ tail, (AtModem.switch_to_gsm st).2.log = st.log ++ tail) ∧
    (∀ st : ModemSt,
      ∃ tail, (AtModem.switch_to_text_mode st).2.log = st.log ++ tail) ∧
    (∀ (st : ModemSt) (number : String),
      ∃ tail, (AtModem.select_receiver st number).2.log = st.log ++ tail) ∧
    (∀ (st : ModemSt) (content : String),
      ∃ tail, (AtModem.send_message st content).2.log = st.log ++ tail) ∧
    (∀ (st : ModemSt) (number content : String),
      ∃ tail, (run st number content).2.log = st.log ++ tail) := by
  refine ⟨fun st w => rfl, ?_, make_command_log_ext, works_log_ext,
    switch_to_gsm_log_ext, switch_to_text_mode_log_ext,
    select_receiver_log_ext, send_message_log_ext, run_log_ext⟩
  intro seconds stream fd lg
  rw [listen_unfold]
  exact listenLoop_log_ext lg (seconds * 10 / AtModem.TIMEOUT_DS) stream
